import Mathlib

/-!
Shallow embedding of the core control-plane code of the undermoon proxy:
the coordinator ping failure detector (src/coordinator/detector.rs),
the HTTP meta-manipulation broker (src/coordinator/http_mani_broker.rs),
the retry/execution primitive (src/common/resp_execution.rs), and the
UMCTL forward handler (src/proxy/executor.rs).

Machine-level effects (async scheduling, logging, timers) are modelled by
explicit state passing; each fallible external call is represented by the
value it resolves to. Fuel-indexed interpreters model the infinite retry
streams: a `none` first component means the loop is still running after
the given number of steps; `some e` means the driven future failed with
error `e`.
-/

deriving instance DecidableEq for Except

namespace Undermoon

/-- RESP values, mirroring `protocol::Resp` (`Simple`, `Error`, `Bulk`, `Arr`).
Byte strings are modelled as `String`; array contents are never inspected by
the embedded code. -/
inductive Resp where
  | Simple (s : String)
  | Error (s : String)
  | Bulk (s : Option String)
  | Arr (items : Option (List Resp))

/-- The variants of `protocol::RedisClientError` used by the embedded code
(`Io`, `Done`, `Closed`, `InvalidReply`, `Canceled`), with `Other` standing
for the remaining variants of the Rust enum. -/
inductive RedisClientError where
  | IoErr
  | Done
  | Closed
  | InvalidReply
  | Canceled
  | Other (n : Nat)
deriving DecidableEq, Repr

/-- `coordinator::core::CoordinateError`: `Redis` wraps a client error,
`MetaData` a broker error (payload irrelevant here). -/
inductive CoordinateError where
  | Redis (e : RedisClientError)
  | MetaData
deriving DecidableEq, Repr

/-! ## Ping failure detector (src/coordinator/detector.rs) -/

/-- The observable behaviour of one probe in `PingFailureDetector::ping`:
either `create_client` fails, or the client is created and the single
`PING` via `execute_single` resolves to `Ok r` or to `Err e`. -/
inductive ProbeEvent where
  | connectFail
  | pingOk (r : Resp)
  | pingErr (e : RedisClientError)

/-- `PingFailureDetector::ping`: connect failure yields `Ok(Some(address))`
(a failure vote); any `Ok` reply from `execute_single` yields `Ok(None)`;
a send error is surfaced as `Err(CoordinateError::Redis(err))`. -/
def PingFailureDetector.ping (ev : ProbeEvent) (address : String) :
    Except CoordinateError (Option String) :=
  match ev with
  | .connectFail => .ok (some address)
  | .pingOk _ => .ok none
  | .pingErr e => .error (.Redis e)

/-- `RETRY` in `PingFailureDetector::check_impl`. -/
def RETRY : Nat := 3

/-- The `for i in 1..=RETRY` loop of `check_impl`, indexed by the current
iteration `i` and the number `rem` of iterations still allowed (so the
iteration with `rem = 1` is the one where `i == RETRY`).  The second
component counts how many probes (`ping` calls) were performed.  `rem = 0`
is the fall-through `Ok(Some(address))` after the loop. -/
def PingFailureDetector.check_loop (probes : Nat → ProbeEvent) (address : String) :
    Nat → Nat → Except CoordinateError (Option String) × Nat
  | _, 0 => (.ok (some address), 0)
  | i, rem + 1 =>
    match PingFailureDetector.ping (probes i) address with
    | .ok none => (.ok none, 1)
    | _ =>
      if rem = 0 then (.ok (some address), 1)
      else
        let r := PingFailureDetector.check_loop probes address (i + 1) rem
        (r.1, r.2 + 1)

/-- `PingFailureDetector::check_impl`: run up to `RETRY = 3` probes starting
at `i = 1`. -/
def PingFailureDetector.check_impl (probes : Nat → ProbeEvent) (address : String) :
    Except CoordinateError (Option String) × Nat :=
  PingFailureDetector.check_loop probes address 1 RETRY

/-- The `FailureChecker::check` trait method just boxes `check_impl`. -/
def PingFailureDetector.check (probes : Nat → ProbeEvent) (address : String) :
    Except CoordinateError (Option String) × Nat :=
  PingFailureDetector.check_impl probes address

/-- A probe succeeds exactly when the client is created and the `PING`
send returns any reply. -/
def probeSucceeds : ProbeEvent → Bool
  | .pingOk _ => true
  | _ => false

/-! ## HTTP meta-manipulation broker (src/coordinator/http_mani_broker.rs) -/

/-- `MetaManipulationBrokerError`; the embedded code only produces
`InvalidReply`, `OtherVariant` stands for the rest of the Rust enum. -/
inductive MetaManipulationBrokerError where
  | InvalidReply
  | OtherVariant (n : Nat)
deriving DecidableEq, Repr

/-- An HTTP response as observed by `commit_migration_impl`: its status
code and the result of `response.text()`. -/
structure HttpResponse where
  status : Nat
  bodyText : Except Unit String
deriving DecidableEq, Repr

/-- The resolution of `client.put(url).json(meta).send()`: a transport
error or a response. -/
inductive SendResult where
  | transportErr
  | response (r : HttpResponse)
deriving DecidableEq, Repr

/-- `reqwest::StatusCode::is_success`: 2xx. -/
def status_is_success (s : Nat) : Bool := 200 ≤ s && s < 300

/-- `HttpMetaManipulationBroker::commit_migration_impl`: transport error →
`InvalidReply`; status 2xx or 404 → `Ok(())`; otherwise read the body (for
logging) and return `InvalidReply` whether or not the read succeeds. -/
def commit_migration_impl (send : SendResult) :
    Except MetaManipulationBrokerError Unit :=
  match send with
  | .transportErr => .error .InvalidReply
  | .response r =>
    if status_is_success r.status || r.status == 404 then .ok ()
    else
      match r.bodyText with
      | .ok _ => .error .InvalidReply
      | .error _ => .error .InvalidReply

end Undermoon

namespace Undermoon

/-- C2 helper: unfolded characterisation of the three-probe loop. -/
theorem check_impl_eq (probes : Nat → ProbeEvent) (addr : String) :
    PingFailureDetector.check_impl probes addr =
      if probeSucceeds (probes 1) then (.ok none, 1)
      else if probeSucceeds (probes 2) then (.ok none, 2)
      else if probeSucceeds (probes 3) then (.ok none, 3)
      else (.ok (some addr), 3) := by
  rcases h1 : probes 1 with _ | r1 | e1 <;>
    rcases h2 : probes 2 with _ | r2 | e2 <;>
      rcases h3 : probes 3 with _ | r3 | e3 <;>
        simp [PingFailureDetector.check_impl, PingFailureDetector.check_loop,
          PingFailureDetector.ping, RETRY, h1, h2, h3, probeSucceeds]

/-- C2: `check` returns `Ok(None)` iff at least one of the at-most-3 probes
succeeds (client creation succeeded and the PING send returned a reply),
returns `Ok(Some(address))` iff all 3 probes fail, and the number of probes
performed is exactly the index of the first successful probe (or 3 when
none succeeds): on the first success it returns immediately. -/
theorem check_probe_sufficiency (probes : Nat → ProbeEvent) (addr : String) :
    ((PingFailureDetector.check probes addr).1 = .ok none ↔
      (probeSucceeds (probes 1) = true ∨ probeSucceeds (probes 2) = true ∨
        probeSucceeds (probes 3) = true)) ∧
    ((PingFailureDetector.check probes addr).1 = .ok (some addr) ↔
      (probeSucceeds (probes 1) = false ∧ probeSucceeds (probes 2) = false ∧
        probeSucceeds (probes 3) = false)) ∧
    ((PingFailureDetector.check probes addr).2 =
      if probeSucceeds (probes 1) then 1
      else if probeSucceeds (probes 2) then 2
      else if probeSucceeds (probes 3) then 3 else 3) := by
  have h := check_impl_eq probes addr
  unfold PingFailureDetector.check
  rw [h]
  rcases hb1 : probeSucceeds (probes 1) <;>
    rcases hb2 : probeSucceeds (probes 2) <;>
      rcases hb3 : probeSucceeds (probes 3) <;> simp

/-- C5: for every address and every behaviour of the probes (including a
final probe whose `ping` produced a `CoordinateError`), `check` never
returns an error — its result is `Ok(None)` or `Ok(Some(address))`. -/
theorem check_never_errors (probes : Nat → ProbeEvent) (addr : String) :
    (PingFailureDetector.check probes addr).1 = .ok none ∨
      (PingFailureDetector.check probes addr).1 = .ok (some addr) := by
  have h := check_impl_eq probes addr
  unfold PingFailureDetector.check
  rw [h]
  rcases probeSucceeds (probes 1) <;>
    rcases probeSucceeds (probes 2) <;>
      rcases probeSucceeds (probes 3) <;> simp

/-- C9: if a probe's client creation succeeds and `execute_single` returns
`Ok` with any RESP value `r` — in particular a RESP `Error` reply — then
`ping` yields `Ok(None)`, and `check` for an address whose first probe is
such an event returns `Ok(None)` after exactly that single probe; the
content of `r` is never inspected. -/
theorem ping_any_ok_reply_is_healthy (r : Resp) (addr : String)
    (probes : Nat → ProbeEvent) (h : probes 1 = ProbeEvent.pingOk r) :
    PingFailureDetector.ping (ProbeEvent.pingOk r) addr = .ok none ∧
      PingFailureDetector.check probes addr = (.ok none, 1) := by
  constructor
  · rfl
  · unfold PingFailureDetector.check
    rw [check_impl_eq probes addr, h]
    simp [probeSucceeds]

/-- Witness for C9 at a concrete input: the first probe replies with the
RESP error `-ERR unhealthy`, and the checker still judges the address
healthy after one probe. -/
theorem ping_any_ok_reply_is_healthy_witness :
    PingFailureDetector.ping (ProbeEvent.pingOk (Resp.Error "ERR unhealthy"))
        "127.0.0.1:7000" = .ok none ∧
      PingFailureDetector.check (fun _ => ProbeEvent.pingOk (Resp.Error "ERR unhealthy"))
        "127.0.0.1:7000" = (.ok none, 1) :=
  ping_any_ok_reply_is_healthy (Resp.Error "ERR unhealthy") "127.0.0.1:7000"
    (fun _ => ProbeEvent.pingOk (Resp.Error "ERR unhealthy")) rfl

/-- C4: `commit_migration` returns `Ok(())` iff the HTTP send produced a
response whose status is 2xx or exactly 404; in every other case — any
other status (whether or not the body read succeeds) and any transport
error — it returns the `InvalidReply` error. -/
theorem commit_migration_status_discipline (send : SendResult) :
    (commit_migration_impl send = .ok () ↔
      ∃ r, send = SendResult.response r ∧
        ((200 ≤ r.status ∧ r.status < 300) ∨ r.status = 404)) ∧
    (commit_migration_impl send ≠ .ok () →
      commit_migration_impl send = .error .InvalidReply) := by
  rcases send with _ | r
  · simp [commit_migration_impl]
  · rcases r with ⟨s, body⟩
    by_cases hs : status_is_success s || s == 404
    · constructor
      · simp only [commit_migration_impl, hs, if_true]
        simp only [status_is_success, Bool.or_eq_true, beq_iff_eq,
          Bool.and_eq_true, decide_eq_true_eq] at hs
        simp [hs]
      · intro hne
        exact absurd (by simp [commit_migration_impl, hs]) hne
    · have hres : commit_migration_impl (SendResult.response ⟨s, body⟩) =
          .error .InvalidReply := by
        rcases body with e | b <;> simp [commit_migration_impl, hs]
      constructor
      · rw [hres]
        simp only [status_is_success, Bool.or_eq_true, beq_iff_eq,
          Bool.and_eq_true, decide_eq_true_eq] at hs
        push_neg at hs
        constructor
        · intro hc
          exact absurd hc (by simp)
        · rintro ⟨r2, hr2, hcase⟩
          have hst : r2.status = s := by
            injection hr2 with h
            rw [← h]
          rw [hst] at hcase
          rcases hcase with ⟨h1, h2⟩ | h4
          · exact absurd (hs.1 h1) (by omega)
          · exact absurd h4 hs.2
      · intro _
        exact hres

/-- Witness for C4 at a concrete input: a 500 response with a readable
body is not `Ok` and maps to `InvalidReply`. -/
theorem commit_migration_status_discipline_witness :
    commit_migration_impl (SendResult.response ⟨500, .ok "oops"⟩) =
      .error .InvalidReply :=
  (commit_migration_status_discipline (SendResult.response ⟨500, .ok "oops"⟩)).2
    (by decide)

/-! ## Retry/execution primitive (src/common/resp_execution.rs)

The driven futures are infinite streams; they are embedded as fuel-indexed
interpreters over an abstract world state `σ`.  `execute` models
`client.execute(cmd)` (the client identity and any shared counters live in
`σ`; the command is fixed for a given loop, so it is dropped); it returns
the resolved value and the successor state.  A result of `(some e, s)`
means the future failed with error `e` in world state `s`; `(none, s)`
means it is still running when the fuel runs out. -/

/-- `keep_sending_cmd`: an infinite `fold` that sends the command, applies
`handle_result` to the response, and loops; it ends only by an error from
the send or from `handle_result`.  The `Delay` join always succeeds and is
value-irrelevant, so it is elided. -/
def keep_sending_cmd {σ : Type} (execute : σ → Except RedisClientError Resp × σ)
    (handle_result : Resp → Except RedisClientError Unit) :
    Nat → σ → Option RedisClientError × σ
  | 0, s => (none, s)
  | fuel + 1, s =>
    match execute s with
    | (.error e, s2) => (some e, s2)
    | (.ok response, s2) =>
      match handle_result response with
      | .error e => (some e, s2)
      | .ok () => keep_sending_cmd execute handle_result fuel s2

/-- The phase of the outer loop of `keep_connecting_and_sending`: about to
acquire a client from the factory, or holding a live client. -/
inductive ConnPhase where
  | connecting
  | connected
deriving DecidableEq, Repr

/-- `keep_connecting_and_sending`, with the inner `keep_sending_cmd` loop
flattened in: from `connecting`, acquire a client via `create_client`;
from `connected`, send and apply `handle_result`.  Any error flows to the
outer `then`-combinator, which terminates the stream iff the error is
`Done` and otherwise logs and re-enters the factory loop. -/
def keep_connecting_and_sending {σ : Type}
    (create_client : σ → Except RedisClientError Unit × σ)
    (execute : σ → Except RedisClientError Resp × σ)
    (handle_result : Resp → Except RedisClientError Unit) :
    Nat → ConnPhase → σ → Option RedisClientError × σ
  | 0, _, s => (none, s)
  | fuel + 1, .connecting, s =>
    match create_client s with
    | (.error e, s2) =>
      if e = .Done then (some .Done, s2)
      else keep_connecting_and_sending create_client execute handle_result
        fuel .connecting s2
    | (.ok _, s2) =>
      keep_connecting_and_sending create_client execute handle_result
        fuel .connected s2
  | fuel + 1, .connected, s =>
    match execute s with
    | (.error e, s2) =>
      if e = .Done then (some .Done, s2)
      else keep_connecting_and_sending create_client execute handle_result
        fuel .connecting s2
    | (.ok response, s2) =>
      match handle_result response with
      | .error e =>
        if e = .Done then (some .Done, s2)
        else keep_connecting_and_sending create_client execute handle_result
          fuel .connecting s2
      | .ok () =>
        keep_connecting_and_sending create_client execute handle_result
          fuel .connected s2

/-- `retry_handle_func`: logs RESP `Error` replies and returns `Ok(())`
for every input. -/
def retry_handle_func : Resp → Except RedisClientError Unit
  | Resp.Error _ => .ok ()
  | _ => .ok ()

/-- `keep_retrying_and_sending` = `keep_connecting_and_sending` with
`retry_handle_func` as the predicate. -/
def keep_retrying_and_sending {σ : Type}
    (create_client : σ → Except RedisClientError Unit × σ)
    (execute : σ → Except RedisClientError Resp × σ) :
    Nat → ConnPhase → σ → Option RedisClientError × σ :=
  keep_connecting_and_sending create_client execute retry_handle_func

/-- The `DummyRedisClient` of the `resp_execution` tests: the world state
is the shared `Counter.count`; `execute` succeeds with `+OK` and bumps the
counter while `count < max_count`, and fails with `Closed` afterwards. -/
def dummy_execute (max_count : Nat) (count : Nat) :
    Except RedisClientError Resp × Nat :=
  if count < max_count then (.ok (Resp.Simple "OK"), count + 1)
  else (.error .Closed, count)

/-- C6: with the dummy client that succeeds on its first 3 `execute` calls
and then fails with `Closed`, zero interval, and the always-continue
predicate `retry_handle_func`, `keep_sending_cmd` completes with an error
outcome (`Closed`) after exactly 3 successful sends and the shared counter
reads 3. -/
theorem keep_sending_cmd_counts_attempts :
    keep_sending_cmd (dummy_execute 3) retry_handle_func 10 0 =
      (some RedisClientError.Closed, 3) := by decide

/-- World for the C3 counterexample: the first `create_client` succeeds,
any later one fails with `Done`. -/
def c3_create_client : Nat → Except RedisClientError Unit × Nat
  | 0 => (.ok (), 1)
  | n + 1 => (.error .Done, n + 2)

/-- World for the C3 counterexample: every send returns `+A`. -/
def c3_execute (n : Nat) : Except RedisClientError Resp × Nat :=
  (.ok (Resp.Simple "A"), n + 1)

/-- Predicate for the C3 counterexample: a terminal-err outcome `Closed`
on every simple-string response. -/
def c3_handle_result : Resp → Except RedisClientError Unit
  | Resp.Simple _ => .error .Closed
  | _ => .ok ()

/-- C3 counterexample: the predicate returns the terminal-err outcome
`Closed` on the first response, yet the task does not fail with `Closed` —
it reconnects, and then terminates with `Done` when the factory errors
with `Done`.  So a predicate error other than `Done` does not fail the
task with that outcome. -/
theorem predicate_terminal_err_not_fatal_cex :
    c3_handle_result (Resp.Simple "A") = .error RedisClientError.Closed ∧
    keep_connecting_and_sending c3_create_client c3_execute c3_handle_result 10
        ConnPhase.connecting 0 = (some RedisClientError.Done, 3) ∧
    RedisClientError.Done ≠ RedisClientError.Closed :=
  ⟨rfl, by decide, by decide⟩

/-- Helper for C3/C10: every terminating run of
`keep_connecting_and_sending` terminates with the `Done` error. -/
theorem kcs_only_done_aux {σ : Type}
    (cc : σ → Except RedisClientError Unit × σ)
    (ex : σ → Except RedisClientError Resp × σ)
    (hr : Resp → Except RedisClientError Unit) :
    ∀ (fuel : Nat) (phase : ConnPhase) (s : σ) (e : RedisClientError) (s2 : σ),
      keep_connecting_and_sending cc ex hr fuel phase s = (some e, s2) →
        e = RedisClientError.Done := by
  intro fuel
  induction fuel with
  | zero =>
    intro phase s e s2 h
    simp [keep_connecting_and_sending] at h
  | succ n ih =>
    intro phase s e s2 h
    cases phase
    case connecting =>
      rcases hc : cc s with ⟨ce, s3⟩
      cases ce with
      | error e1 =>
        by_cases hd : e1 = RedisClientError.Done
        · simp [keep_connecting_and_sending, hc, hd] at h
          exact h.1.symm
        · simp [keep_connecting_and_sending, hc, hd] at h
          exact ih _ _ _ _ h
      | ok u =>
        simp [keep_connecting_and_sending, hc] at h
        exact ih _ _ _ _ h
    case connected =>
      rcases he : ex s with ⟨xe, s3⟩
      cases xe with
      | error e1 =>
        by_cases hd : e1 = RedisClientError.Done
        · simp [keep_connecting_and_sending, he, hd] at h
          exact h.1.symm
        · simp [keep_connecting_and_sending, he, hd] at h
          exact ih _ _ _ _ h
      | ok r =>
        rcases hh : hr r with e2 | u
        case error =>
          by_cases hd : e2 = RedisClientError.Done
          · simp [keep_connecting_and_sending, he, hh, hd] at h
            exact h.1.symm
          · simp [keep_connecting_and_sending, he, hh, hd] at h
            exact ih _ _ _ _ h
        case ok =>
          simp [keep_connecting_and_sending, he, hh] at h
          exact ih _ _ _ _ h

/-- C3 (amended): in `keep_connecting_and_sending` the only terminal
outcome is the `Done` error — the task fails with `Done` exactly when the
predicate, the send, or the client acquisition yields the `Done` error;
any non-`Done` error from the send, and likewise any non-`Done` terminal-err
outcome from the predicate, is never fatal: it drops the client and
re-enters the factory (connecting) loop. -/
theorem kcs_terminal_conditions {σ : Type}
    (create_client : σ → Except RedisClientError Unit × σ)
    (execute : σ → Except RedisClientError Resp × σ)
    (handle_result : Resp → Except RedisClientError Unit)
    (fuel : Nat) (phase : ConnPhase) (s : σ) :
    (∀ e s2, keep_connecting_and_sending create_client execute handle_result
        fuel phase s = (some e, s2) → e = RedisClientError.Done) ∧
    (∀ e s2, execute s = (.error e, s2) → e ≠ RedisClientError.Done →
      keep_connecting_and_sending create_client execute handle_result (fuel + 1)
          ConnPhase.connected s =
        keep_connecting_and_sending create_client execute handle_result fuel
          ConnPhase.connecting s2) ∧
    (∀ r e s2, execute s = (.ok r, s2) → handle_result r = .error e →
      e ≠ RedisClientError.Done →
      keep_connecting_and_sending create_client execute handle_result (fuel + 1)
          ConnPhase.connected s =
        keep_connecting_and_sending create_client execute handle_result fuel
          ConnPhase.connecting s2) := by
  refine ⟨fun e s2 h => kcs_only_done_aux create_client execute handle_result
    fuel phase s e s2 h, ?_, ?_⟩
  · intro e s2 hex hne
    simp [keep_connecting_and_sending, hex, hne]
  · intro r e s2 hex hhr hne
    simp [keep_connecting_and_sending, hex, hhr, hne]

/-- Witness for C3's amended theorem at a concrete input: a `Closed` send
error makes the task re-enter the connecting phase. -/
theorem kcs_terminal_conditions_witness :
    keep_connecting_and_sending c3_create_client
        (fun n : Nat => (Except.error RedisClientError.Closed, n + 1))
        c3_handle_result 3 ConnPhase.connected 0 =
      keep_connecting_and_sending c3_create_client
        (fun n : Nat => (Except.error RedisClientError.Closed, n + 1))
        c3_handle_result 2 ConnPhase.connecting 1 :=
  (kcs_terminal_conditions c3_create_client
      (fun n : Nat => (Except.error RedisClientError.Closed, n + 1))
      c3_handle_result 2 ConnPhase.connected 0).2.1
    RedisClientError.Closed 1 rfl (by decide)

/-- C10: `retry_handle_func` returns `Ok(())` for every RESP input,
including `Error` replies (which are only logged); consequently
`keep_retrying_and_sending` can never terminate through its predicate:
as long as neither the client factory nor the send ever fails with the
`Done` error, the loop runs forever (it is still running after any number
of steps). -/
theorem retry_never_terminates {σ : Type}
    (create_client : σ → Except RedisClientError Unit × σ)
    (execute : σ → Except RedisClientError Resp × σ)
    (hcc : ∀ s e s2, create_client s = (.error e, s2) →
      e ≠ RedisClientError.Done)
    (hex : ∀ s e s2, execute s = (.error e, s2) → e ≠ RedisClientError.Done)
    (fuel : Nat) (phase : ConnPhase) (s : σ) :
    (∀ r, retry_handle_func r = .ok ()) ∧
    (keep_retrying_and_sending create_client execute fuel phase s).1 = none := by
  constructor
  · intro r
    cases r <;> rfl
  · induction fuel generalizing phase s with
    | zero =>
      cases phase <;>
        simp [keep_retrying_and_sending, keep_connecting_and_sending]
    | succ n ih =>
      cases phase
      case connecting =>
        rcases hc : create_client s with ⟨ce, s3⟩
        cases ce with
        | error e1 =>
          have hne := hcc s e1 s3 hc
          simp only [keep_retrying_and_sending, keep_connecting_and_sending,
            hc, hne, if_neg]
          exact ih ConnPhase.connecting s3
        | ok u =>
          simp only [keep_retrying_and_sending, keep_connecting_and_sending, hc]
          exact ih ConnPhase.connected s3
      case connected =>
        rcases he : execute s with ⟨xe, s3⟩
        cases xe with
        | error e1 =>
          have hne := hex s e1 s3 he
          simp only [keep_retrying_and_sending, keep_connecting_and_sending,
            he, hne, if_neg]
          exact ih ConnPhase.connecting s3
        | ok r =>
          have hr : retry_handle_func r = .ok () := by cases r <;> rfl
          simp only [keep_retrying_and_sending, keep_connecting_and_sending,
            he, hr]
          exact ih ConnPhase.connected s3

/-- Witness for C10 at a concrete input: a world whose factory and sends
always succeed keeps the retry loop running after 5 steps. -/
theorem retry_never_terminates_witness :
    (keep_retrying_and_sending (fun n : Nat => (Except.ok (), n))
        (fun n : Nat => (Except.ok (Resp.Simple "PONG"), n + 1)) 5
        ConnPhase.connecting 0).1 = none :=
  (retry_never_terminates (fun n : Nat => (Except.ok (), n))
      (fun n : Nat => (Except.ok (Resp.Simple "PONG"), n + 1))
      (fun s e s2 h => by simp at h)
      (fun s e s2 h => by simp at h) 5 ConnPhase.connecting 0).2

/-! ## I64Retriever (src/common/resp_execution.rs) -/

/-- `I64Retriever`: the shared atomic i64 and the single-use stop channel
(`stop_signal : AtomicOption<oneshot::Sender<()>>`), whose content is
`some ()` until it is taken. -/
structure I64Retriever where
  data : Int
  stop_signal : Option Unit
deriving DecidableEq, Repr

/-- `I64Retriever::try_stop`: take the sender out of the atomic option; if
one was present, send on it — which succeeds iff the receiver is still
alive — and if the option was already empty, return `false`. -/
def I64Retriever.try_stop (receiver_alive : Bool) (r : I64Retriever) :
    Bool × I64Retriever :=
  match r.stop_signal with
  | some _ => (receiver_alive, { r with stop_signal := none })
  | none => (false, r)

/-- `I64Retriever::stop`: call `try_stop`, logging a warning when it
returns `false`. -/
def I64Retriever.stop (receiver_alive : Bool) (r : I64Retriever) :
    I64Retriever :=
  (I64Retriever.try_stop receiver_alive r).2

/-- `Drop for I64Retriever` invokes `stop`. -/
def I64Retriever.drop (receiver_alive : Bool) (r : I64Retriever) :
    I64Retriever :=
  I64Retriever.stop receiver_alive r

/-- The results of a sequence of `try_stop` calls on one retriever, each
call tagged with whether the receiver is alive at that moment. -/
def I64Retriever.try_stop_run (r : I64Retriever) : List Bool → List Bool
  | [] => []
  | ra :: rest =>
    let p := I64Retriever.try_stop ra r
    p.1 :: I64Retriever.try_stop_run p.2 rest

/-- The first event observed by the future composed in `I64Retriever::new`
(`receiver.map_err(Done).select(sending).map(..).map_err(Done)`): the stop
signal fires, the sender is dropped unused (oneshot cancel), or the
sending loop finishes with an error. -/
inductive RetrieverEvent where
  | signalFired
  | signalCancelled
  | sendingErr (e : RedisClientError)
deriving DecidableEq, Repr

/-- Outcome of the composed retriever future on its first event: a fired
signal resolves the receiver with `Ok`, which wins the `select` and is
mapped to `Ok(())`; a cancelled receiver errs (`Canceled` mapped to
`Done`); an error from the sending loop is collapsed to `Done` by the
final `map_err`. -/
def retriever_fut_outcome : RetrieverEvent → Except RedisClientError Unit
  | .signalFired => .ok ()
  | .signalCancelled => .error .Done
  | .sendingErr _ => .error .Done

/-- C7 counterexample: when the stop signal fires, the composed future of
`I64Retriever::new` completes with `Ok(())` — the success outcome — and
not with the distinguished `Done` error outcome. -/
theorem stop_signal_outcome_cex :
    retriever_fut_outcome RetrieverEvent.signalFired = .ok () ∧
      retriever_fut_outcome RetrieverEvent.signalFired ≠
        .error RedisClientError.Done := by
  exact ⟨rfl, by decide⟩

/-- C7 helper: once the stop signal has been taken, every later `try_stop`
returns `false`. -/
theorem try_stop_run_taken (ras : List Bool) (r : I64Retriever)
    (h : r.stop_signal = none) :
    ∀ b ∈ I64Retriever.try_stop_run r ras, b = false := by
  induction ras generalizing r with
  | nil =>
    intro b hb
    simp [I64Retriever.try_stop_run] at hb
  | cons ra rest ih =>
    intro b hb
    simp only [I64Retriever.try_stop_run, I64Retriever.try_stop, h,
      List.mem_cons] at hb
    rcases hb with hb | hb
    · exact hb
    · exact ih r h b hb

/-- C7 (amended): for every I64 retriever and every sequence of `try_stop`
calls, at most one call returns `true` and every call after the first
returns `false` (a second stop is not an error); dropping the retriever
invokes `stop`, consuming the signal; and when the stop signal fires the
driven task terminates — with the success outcome `Ok(())`, while every
other first event (cancellation, sending error) completes it with the
`Done` error. -/
theorem i64_retriever_stop_idempotent (r : I64Retriever) (ras : List Bool)
    (ra : Bool) :
    (I64Retriever.try_stop_run r ras).count true ≤ 1 ∧
    (∀ b ∈ (I64Retriever.try_stop_run r ras).drop 1, b = false) ∧
    (I64Retriever.drop ra r).stop_signal = none ∧
    retriever_fut_outcome RetrieverEvent.signalFired = .ok () ∧
    (∀ ev, ev ≠ RetrieverEvent.signalFired →
      retriever_fut_outcome ev = .error RedisClientError.Done) := by
  have hdrop : (I64Retriever.drop ra r).stop_signal = none := by
    rcases hsig : r.stop_signal with _ | u <;>
      simp [I64Retriever.drop, I64Retriever.stop, I64Retriever.try_stop, hsig]
  have hev : ∀ ev, ev ≠ RetrieverEvent.signalFired →
      retriever_fut_outcome ev = .error RedisClientError.Done := by
    intro ev hne
    cases ev with
    | signalFired => exact absurd rfl hne
    | signalCancelled => rfl
    | sendingErr e => rfl
  rcases hsig : r.stop_signal with _ | u
  · have hall := try_stop_run_taken ras r hsig
    have hz : (I64Retriever.try_stop_run r ras).count true = 0 := by
      rw [List.count_eq_zero]
      intro hmem
      exact Bool.noConfusion (hall true hmem)
    refine ⟨by omega, ?_, hdrop, rfl, hev⟩
    intro b hb
    exact hall b (List.drop_subset 1 _ hb)
  · cases ras with
    | nil =>
      refine ⟨?_, ?_, hdrop, rfl, hev⟩ <;>
        simp [I64Retriever.try_stop_run]
    | cons ra2 rest =>
      have hstep : I64Retriever.try_stop ra2 r =
          (ra2, { r with stop_signal := none }) := by
        simp [I64Retriever.try_stop, hsig]
      have hall := try_stop_run_taken rest { r with stop_signal := none } rfl
      have hz : (I64Retriever.try_stop_run
          { r with stop_signal := none } rest).count true = 0 := by
        rw [List.count_eq_zero]
        intro hmem
        exact Bool.noConfusion (hall true hmem)
      have hrun : I64Retriever.try_stop_run r (ra2 :: rest) =
          ra2 :: I64Retriever.try_stop_run { r with stop_signal := none } rest := by
        simp [I64Retriever.try_stop_run, hstep]
      refine ⟨?_, ?_, hdrop, rfl, hev⟩
      · rw [hrun]
        cases ra2 <;> simp [List.count_cons, hz]
      · rw [hrun]
        intro b hb
        exact hall b (by simpa using hb)

/-- Witness for C7's amended theorem at a concrete input: the cancellation
event completes the driven task with the `Done` error. -/
theorem i64_retriever_stop_idempotent_witness :
    retriever_fut_outcome RetrieverEvent.signalCancelled =
      .error RedisClientError.Done :=
  (i64_retriever_stop_idempotent ⟨0, some ()⟩ [true] true).2.2.2.2
    RetrieverEvent.signalCancelled (by decide)

/-! ## UMCTL forward handler (src/proxy/executor.rs)

`HostDBMap::from_resp`, `ReplicatorMeta::from_resp`, the migration
manager, the routing store and the replicator manager live outside the
four embedded files; they enter the handlers through type parameters and
function parameters, and each handler additionally returns the list of
manager operations it invoked, in invocation order. -/

/-- `proxy::database::DBError` (its only variant). -/
inductive DBError where
  | OldEpoch
deriving DecidableEq, Repr

/-- A manager operation invoked by a `UMCTL` handler. -/
inductive MetaAction where
  | migrationUpdate
  | setDbsAction
  | setPeersAction
  | updateReplicatorsAction
deriving DecidableEq, Repr

/-- Modelled from the spec: the shared constant `OLD_EPOCH_REPLY` from
`common::utils` is outside the embedded sources; the spec pins it down
only as "the exact constant used throughout to signal epoch-stale
updates", so it is embedded as an abstract distinguished string. -/
def OLD_EPOCH_REPLY : String := "OLD_EPOCH"

/-- `ForwardHandler::handle_umctl_setdb` over an abstract payload type `H`
(`HostDBMap`), migration-manager state `M` and routing-store state `D`:
on parse failure reply `Invalid arguments`; otherwise call
`migration_manager.update` with (a clone of) the map first, and only on
its success call `db.set_dbs` with the same map; reply `+OK` on success
and the `OLD_EPOCH_REPLY` error when either step fails with `OldEpoch`.
The final component records the operations invoked, in order. -/
def handle_umctl_setdb {H M D : Type} (parsed : Except Unit H)
    (migration_update : H → M → Except DBError M)
    (set_dbs : H → D → Except DBError D)
    (mig : M) (db : D) : Resp × M × D × List MetaAction :=
  match parsed with
  | .error _ => (Resp.Error "Invalid arguments", mig, db, [])
  | .ok db_map =>
    match migration_update db_map mig with
    | .ok mig2 =>
      match set_dbs db_map db with
      | .ok db2 =>
        (Resp.Simple "OK", mig2, db2,
          [MetaAction.migrationUpdate, MetaAction.setDbsAction])
      | .error .OldEpoch =>
        (Resp.Error OLD_EPOCH_REPLY, mig2, db,
          [MetaAction.migrationUpdate, MetaAction.setDbsAction])
    | .error .OldEpoch =>
      (Resp.Error OLD_EPOCH_REPLY, mig, db, [MetaAction.migrationUpdate])

/-- `ForwardHandler::handle_umctl_setpeer`: parse, then `db.set_peers`
under the same epoch discipline. -/
def handle_umctl_setpeer {H P : Type} (parsed : Except Unit H)
    (set_peers : H → P → Except DBError P)
    (peers : P) : Resp × P × List MetaAction :=
  match parsed with
  | .error _ => (Resp.Error "Invalid arguments", peers, [])
  | .ok db_map =>
    match set_peers db_map peers with
    | .ok peers2 => (Resp.Simple "OK", peers2, [MetaAction.setPeersAction])
    | .error .OldEpoch =>
      (Resp.Error OLD_EPOCH_REPLY, peers, [MetaAction.setPeersAction])

/-- `ForwardHandler::handle_umctl_setrepl`: parse a `ReplicatorMeta`
(abstract type `R`), then `replicator_manager.update_replicators`. -/
def handle_umctl_setrepl {R Q : Type} (parsed : Except Unit R)
    (update_replicators : R → Q → Except DBError Q)
    (repl : Q) : Resp × Q × List MetaAction :=
  match parsed with
  | .error _ => (Resp.Error "Invalid arguments", repl, [])
  | .ok meta =>
    match update_replicators meta repl with
    | .ok repl2 =>
      (Resp.Simple "OK", repl2, [MetaAction.updateReplicatorsAction])
    | .error .OldEpoch =>
      (Resp.Error OLD_EPOCH_REPLY, repl, [MetaAction.updateReplicatorsAction])

/-- C1: for every parsed `HostDBMap`, `handle_umctl_setdb` invokes
`migration_manager.update` first — any `set_dbs` call comes after it in
the invocation list; `set_dbs` is invoked iff the migration update
returned `Ok`; an `OldEpoch` error from the migration update leaves the
routing store untouched and replies exactly `OLD_EPOCH_REPLY`, and an
`OldEpoch` error from `set_dbs` also replies exactly `OLD_EPOCH_REPLY`. -/
theorem setdb_migration_update_first {H M D : Type}
    (migration_update : H → M → Except DBError M)
    (set_dbs : H → D → Except DBError D)
    (db_map : H) (mig : M) (db : D) :
    ((handle_umctl_setdb (.ok db_map) migration_update set_dbs mig db).2.2.2 =
        [MetaAction.migrationUpdate] ∨
      (handle_umctl_setdb (.ok db_map) migration_update set_dbs mig db).2.2.2 =
        [MetaAction.migrationUpdate, MetaAction.setDbsAction]) ∧
    ((MetaAction.setDbsAction ∈
        (handle_umctl_setdb (.ok db_map) migration_update set_dbs mig db).2.2.2) ↔
      ∃ mig2, migration_update db_map mig = .ok mig2) ∧
    (migration_update db_map mig = .error DBError.OldEpoch →
      (handle_umctl_setdb (.ok db_map) migration_update set_dbs mig db).1 =
          Resp.Error OLD_EPOCH_REPLY ∧
        (handle_umctl_setdb (.ok db_map) migration_update set_dbs mig db).2.2.1 =
          db) ∧
    (∀ mig2, migration_update db_map mig = .ok mig2 →
      set_dbs db_map db = .error DBError.OldEpoch →
      (handle_umctl_setdb (.ok db_map) migration_update set_dbs mig db).1 =
        Resp.Error OLD_EPOCH_REPLY) := by
  rcases hm : migration_update db_map mig with e | mig2
  · cases e
    simp [handle_umctl_setdb, hm]
  · rcases hs : set_dbs db_map db with e2 | db2
    · cases e2
      simp [handle_umctl_setdb, hm, hs]
    · simp [handle_umctl_setdb, hm, hs]

/-- Witness for C1's theorem at a concrete input: a migration update that
succeeds followed by an epoch-stale `set_dbs` replies `OLD_EPOCH_REPLY`. -/
theorem setdb_migration_update_first_witness :
    (handle_umctl_setdb (Except.ok 7)
        (fun (_ : Nat) (m : Nat) => Except.ok (m + 1))
        (fun (_ : Nat) (_ : Nat) => Except.error DBError.OldEpoch) 0 5).1 =
      Resp.Error OLD_EPOCH_REPLY :=
  (setdb_migration_update_first (fun (_ : Nat) (m : Nat) => Except.ok (m + 1))
      (fun (_ : Nat) (_ : Nat) => Except.error DBError.OldEpoch) 7 0 5).2.2.2
    1 rfl rfl

/-- C8: for each of `UMCTL SETDB`, `SETPEER` and `SETREPL`, a payload that
fails to parse is answered with exactly the error string
`Invalid arguments`, no manager operation is invoked, and the migration,
routing and replicator states are unchanged. -/
theorem umctl_parse_error_invokes_nothing {H R M D P Q : Type}
    (migration_update : H → M → Except DBError M)
    (set_dbs : H → D → Except DBError D)
    (set_peers : H → P → Except DBError P)
    (update_replicators : R → Q → Except DBError Q)
    (mig : M) (db : D) (peers : P) (repl : Q) :
    handle_umctl_setdb (.error ()) migration_update set_dbs mig db =
      (Resp.Error "Invalid arguments", mig, db, []) ∧
    handle_umctl_setpeer (.error ()) set_peers peers =
      (Resp.Error "Invalid arguments", peers, []) ∧
    handle_umctl_setrepl (.error ()) update_replicators repl =
      (Resp.Error "Invalid arguments", repl, []) :=
  ⟨rfl, rfl, rfl⟩

end Undermoon
